import Mathlib

set_option autoImplicit false

namespace GameMashup

/-!
Shallow embedding of `src/main.py` of the GameMashup service: the request
validator, the prompt builder (`create_game_mashup`), the orchestrator
(`process_game_mashup`) and the JSON endpoint (`api_create_mashup`).

Python strings are modelled as Lean `String` (slicing and `len` act on code
points, matching CPython's behaviour on `str`).  JSON payload values are
modelled by `Value`; a payload is an association list from keys to values.
The OpenAI client is the external collaborator: it is modelled as an optional
function from the completion request to a result (`none` models the
process-wide `client = None` state left by a failed initialisation), and the
embedding additionally counts how many times the client function is invoked.
Exceptions are modelled by `Except` with the `Exn` kind carrying the message;
`uuid.uuid4()` and `datetime.now().strftime(...)` are modelled as per-call
string inputs.
-/

/-- A JSON-style Python value as it can appear in a parsed request payload. -/
inductive Value where
  | null
  | str (s : String)
  | num (n : Int)
  | boolean (b : Bool)
  deriving Repr, DecidableEq

/-- Python truthiness on `Value`: `None`, `""`, `0` and `False` are falsy. -/
def pyTruthy : Value → Bool
  | Value.null => false
  | Value.str s => !(s == "")
  | Value.num n => !(n == 0)
  | Value.boolean b => b

/-- Python `str(...)` rendering of a payload value, as used by f-string
substitution. -/
def pyStr : Value → String
  | Value.null => "None"
  | Value.str s => s
  | Value.num n => toString n
  | Value.boolean true => "True"
  | Value.boolean false => "False"

/-- A parsed JSON object: keys to values, first binding wins on lookup. -/
def PyDict : Type := List (String × Value)

/-- Dictionary lookup. -/
def PyDict.lookup (d : PyDict) (k : String) : Option Value :=
  List.lookup k d

/-- The kinds of Python exception relevant to `main.py`: `ValueError` is
caught separately by the endpoint (HTTP 400); every other exception falls to
the generic handler (HTTP 500). -/
inductive Exn where
  | valueError (msg : String)
  | typeError (msg : String)
  | keyError (msg : String)
  | otherError (msg : String)
  deriving Repr, DecidableEq

/-- The message carried by an exception. -/
def Exn.message : Exn → String
  | Exn.valueError m => m
  | Exn.typeError m => m
  | Exn.keyError m => m
  | Exn.otherError m => m

/-- Python slicing `s[:n]` on a `str`: the first `n` code points. -/
def pyTake (n : Nat) (s : String) : String :=
  String.mk (s.data.take n)

/-- The excerpt of a description string, from line 122 of `main.py`:
`game1_data[:100] + "..." if len(game1_data) > 100 else game1_data`. -/
def excerpt (s : String) : String :=
  if 100 < s.length then pyTake 100 s ++ "..." else s

/-- The excerpt computation applied to a raw payload value: `len(...)` raises
`TypeError` on the values of `Value` other than strings. -/
def pyExcerpt : Value → Except Exn String
  | Value.str s => Except.ok (excerpt s)
  | Value.null => Except.error (Exn.typeError "object of type NoneType has no len()")
  | Value.num _ => Except.error (Exn.typeError "object of type int has no len()")
  | Value.boolean _ => Except.error (Exn.typeError "object of type bool has no len()")

/-- The string returned by `create_game_mashup` when the module-level
`client` is `None` (line 44 of `main.py`). -/
def notInitializedMsg : String :=
  "OpenAI client is not initialized. Please check your API key and environment variables."

/-- The fixed system-role instruction string (line 87 of `main.py`). -/
def systemContent : String :=
  "You are a world-class game designer known for creating innovative game concepts that successfully blend different genres and mechanics. You deliver creative, detailed, and marketable game ideas."

/-- Template text of the user prompt before the first game blob
(lines 46-49 of `main.py`). -/
def promptPre : String :=
  "\n    You are an expert game designer and creative director. I will give you two different games, and I want you to create an innovative mashup that combines the best elements of both into a completely new game concept.\n\n    **Game 1:**\n    "

/-- Template text between the two game blobs (lines 51-53 of `main.py`). -/
def promptMid : String :=
  "\n\n    **Game 2:**\n    "

/-!
The template text after the second blob (lines 54-82 of `main.py`) is spelled
as a concatenation split exactly at the eight section-heading names, so that
the ordered occurrence of the headings is visible in the definition; the
concatenation reproduces the source f-string text character for character.
-/

/-- Tail of the template after the `Marketing Hooks` heading. -/
def promptSeg8 : String :=
  "\n    Provide 3 compelling marketing angles that would grab attention.\n\n    IMPORTANT: Be creative and innovative. Don't just list features from both games - truly blend them into something new. Use professional language with perfect grammar and formatting.\n    "

/-- Template text between the `Monetization Strategy` and `Marketing Hooks` headings. -/
def promptSeg7 : String :=
  "\n    Suggest 2-3 ways to make this game profitable while keeping it player-friendly.\n\n    ## 🚀 "

/-- Template text between the `Target Audience` and `Monetization Strategy` headings. -/
def promptSeg6 : String :=
  "\n    Identify who would play this game and why it appeals to fans of both source games.\n\n    ## 💰 "

/-- Template text between the `Key Mechanics Fusion` and `Target Audience` headings. -/
def promptSeg5 : String :=
  "\n    Explain how you're combining specific mechanics from both games in creative ways.\n\n    ## 👥 "

/-- Template text between the `Core Game Loop` and `Key Mechanics Fusion` headings. -/
def promptSeg4 : String :=
  "\n    Describe the primary gameplay cycle that players will experience repeatedly.\n\n    ## 🎨 "

/-- Template text between the `Unique Selling Points` and `Core Game Loop` headings. -/
def promptSeg3 : String :=
  "\n    List 3-4 compelling features that make this mashup special and marketable.\n\n    ## 🔄 "

/-- Template text between the `Genre & Core Concept` and `Unique Selling Points` headings. -/
def promptSeg2 : String :=
  "\n    Define the hybrid genre and explain the core fusion concept in 2-3 sentences.\n\n    ## ⚡ "

/-- Template text between the `Title` and `Genre & Core Concept` headings. -/
def promptSeg1 : String :=
  "\n    Create an original, catchy title that doesn't use proper nouns from either source game.\n\n    ## 🎯 "

/-- Template text from the end of the second blob up to the `Title` heading. -/
def promptSeg0 : String :=
  "\n\n    Create a detailed game concept that fuses these two games together. Your response should include:\n\n    ## 🎮 Game "

/-- The eight section-heading names requested by the template, in template
order. -/
def sectionHeadings : List String :=
  ["Title", "Genre & Core Concept", "Unique Selling Points", "Core Game Loop",
   "Key Mechanics Fusion", "Target Audience", "Monetization Strategy", "Marketing Hooks"]

/-- Template tail starting inside the `Marketing Hooks` heading. -/
def promptPost8 : String := promptSeg8

/-- Template tail starting after the `Monetization Strategy` heading. -/
def promptPost7 : String := promptSeg7 ++ ("Marketing Hooks" ++ promptPost8)

/-- Template tail starting after the `Target Audience` heading. -/
def promptPost6 : String := promptSeg6 ++ ("Monetization Strategy" ++ promptPost7)

/-- Template tail starting after the `Key Mechanics Fusion` heading. -/
def promptPost5 : String := promptSeg5 ++ ("Target Audience" ++ promptPost6)

/-- Template tail starting after the `Core Game Loop` heading. -/
def promptPost4 : String := promptSeg4 ++ ("Key Mechanics Fusion" ++ promptPost5)

/-- Template tail starting after the `Unique Selling Points` heading. -/
def promptPost3 : String := promptSeg3 ++ ("Core Game Loop" ++ promptPost4)

/-- Template tail starting after the `Genre & Core Concept` heading. -/
def promptPost2 : String := promptSeg2 ++ ("Unique Selling Points" ++ promptPost3)

/-- Template tail starting after the `Title` heading. -/
def promptPost1 : String := promptSeg1 ++ ("Genre & Core Concept" ++ promptPost2)

/-- The whole template text after the second game blob. -/
def promptPost : String := promptSeg0 ++ ("Title" ++ promptPost1)

/-- The user-role prompt f-string of `create_game_mashup`
(lines 46-82 of `main.py`), as a function of the two substituted blobs. -/
def promptOf (game1Data game2Data : String) : String :=
  promptPre ++ (game1Data ++ (promptMid ++ (game2Data ++ promptPost)))

/-- The two chat messages (role, content) passed to the completion call
(lines 86-89 of `main.py`). -/
def buildMessages (game1Data game2Data : String) : List (String × String) :=
  [("system", systemContent), ("user", promptOf game1Data game2Data)]

/-- The request handed to the completion client: model name, messages and the
maximum output tokens (lines 84-92 of `main.py`; the literal temperature 0.85
is a float constant irrelevant to every claim and is not modelled). -/
structure CompletionRequest where
  model : String
  messages : List (String × String)
  maxTokens : Nat
  deriving Repr

/-- Behaviour of an initialised OpenAI client: the generated text of
`response.choices[0].message.content`, or a raised exception. -/
def ClientFn : Type := CompletionRequest → Except Exn String

/-- The module-level `client`: `none` models `client = None` (no usable API
key at start-up), `some f` an initialised client behaving as `f`. -/
def ClientState : Type := Option ClientFn

/-- `create_game_mashup` (lines 41-94 of `main.py`), instrumented with the
number of completion-client invocations it performs. -/
def create_game_mashup (client : ClientState) (game1Data game2Data : Value) :
    Except Exn String × Nat :=
  match client with
  | none => (Except.ok notInitializedMsg, 0)
  | some f =>
      (f { model := "gpt-4",
           messages := buildMessages (pyStr game1Data) (pyStr game2Data),
           maxTokens := 2500 }, 1)

/-- The successful response dictionary built by `process_game_mashup`
(lines 115-126 of `main.py`). -/
structure MashupResult where
  success : Bool
  message : String
  report_id : String
  mashup_name : Value
  concept : String
  source_game1 : String
  source_game2 : String
  generated_at : String
  deriving Repr, DecidableEq

/-- The required payload fields, in the order checked (line 99 of `main.py`). -/
def required_fields : List String :=
  ["mashup_name", "game1_data", "game2_data"]

/-- The per-field test of the validation loop (line 101 of `main.py`):
`field not in data or not data[field]`. -/
def fieldMissing (data : PyDict) (field : String) : Bool :=
  match data.lookup field with
  | none => true
  | some v => !pyTruthy v

/-- The validation loop (lines 100-102 of `main.py`): the first required
field that is absent or falsy, if any. -/
def validateFields (data : PyDict) : Option String :=
  required_fields.find? (fieldMissing data)

/-- `process_game_mashup` (lines 96-126 of `main.py`), instrumented with the
number of completion-client invocations.  `uuidStr` stands for the fresh
`str(uuid.uuid4())` drawn by the call and `nowStr` for the formatted
`datetime.now()` timestamp. -/
def processGameMashup (data : PyDict) (client : ClientState) (uuidStr nowStr : String) :
    Except Exn MashupResult × Nat :=
  match validateFields data with
  | some field => (Except.error (Exn.valueError ("Missing required field: " ++ field)), 0)
  | none =>
    match data.lookup "mashup_name", data.lookup "game1_data", data.lookup "game2_data" with
    | some mashupName, some game1, some game2 =>
      match create_game_mashup client game1 game2 with
      | (Except.error e, n) => (Except.error e, n)
      | (Except.ok concept, n) =>
        match pyExcerpt game1 with
        | Except.error e => (Except.error e, n)
        | Except.ok ex1 =>
          match pyExcerpt game2 with
          | Except.error e => (Except.error e, n)
          | Except.ok ex2 =>
            (Except.ok
              { success := true,
                message := "Game mashup created successfully!",
                report_id := pyTake 8 uuidStr,
                mashup_name := mashupName,
                concept := concept,
                source_game1 := ex1,
                source_game2 := ex2,
                generated_at := nowStr }, n)
    | _, _, _ => (Except.error (Exn.keyError "required field vanished"), 0)

/-- A serialised JSON response body: either an error object
`{'error': msg}` or a success dictionary. -/
inductive ApiBody where
  | errBody (msg : String)
  | okBody (r : MashupResult)
  deriving Repr, DecidableEq

/-- The `/api/create-mashup` endpoint (lines 148-165 of `main.py`):
HTTP status and body, given the parsed request body (`none` when the request
carries no JSON), instrumented with the completion-client invocation count. -/
def api_create_mashup (data : Option PyDict) (client : ClientState) (uuidStr nowStr : String) :
    (Nat × ApiBody) × Nat :=
  match data with
  | none => ((400, ApiBody.errBody "No JSON data provided"), 0)
  | some d =>
    match processGameMashup d client uuidStr nowStr with
    | (Except.ok r, n) => ((200, ApiBody.okBody r), n)
    | (Except.error (Exn.valueError m), n) => ((400, ApiBody.errBody m), n)
    | (Except.error (Exn.typeError m), n) => ((500, ApiBody.errBody m), n)
    | (Except.error (Exn.keyError m), n) => ((500, ApiBody.errBody m), n)
    | (Except.error (Exn.otherError m), n) => ((500, ApiBody.errBody m), n)

/-- A lowercase hexadecimal digit. -/
def isLowerHexDigit (c : Char) : Bool :=
  ('0' ≤ c && c ≤ '9') || ('a' ≤ c && c ≤ 'f')

/-- The canonical text form of `str(uuid.uuid4())`: 36 characters, lowercase
hexadecimal digits with hyphens at positions 8, 13, 18 and 23. -/
def isUuid4String (s : String) : Bool :=
  s.data.length == 36 &&
  (s.data.take 8).all isLowerHexDigit &&
  ((s.data.drop 8).take 1 == ['-']) &&
  ((s.data.drop 9).take 4).all isLowerHexDigit &&
  ((s.data.drop 13).take 1 == ['-']) &&
  ((s.data.drop 14).take 4).all isLowerHexDigit &&
  ((s.data.drop 18).take 1 == ['-']) &&
  ((s.data.drop 19).take 4).all isLowerHexDigit &&
  ((s.data.drop 23).take 1 == ['-']) &&
  (s.data.drop 24).all isLowerHexDigit

/-- `containsInOrder s parts` holds when the strings of `parts` occur in `s`
as pairwise disjoint substrings, in the given order. -/
def containsInOrder : String → List String → Prop
  | _, [] => True
  | s, p :: ps => ∃ pre rest, s = pre ++ (p ++ rest) ∧ containsInOrder rest ps

/-- The successful result of a run, if it succeeded. -/
def resultOk? (p : Except Exn MashupResult × Nat) : Option MashupResult :=
  match p.1 with
  | Except.ok r => some r
  | Except.error _ => none

/-- A well-formed request payload with all three required fields non-empty
strings. -/
def validPayload : PyDict :=
  [("mashup_name", Value.str "Mash"),
   ("game1_data", Value.str "Game one description"),
   ("game2_data", Value.str "Game two description")]

end GameMashup

namespace GameMashup

/-- The per-field validation test succeeds exactly on an absent key or a
falsy value. -/
theorem fieldMissing_iff (data : PyDict) (field : String) :
    fieldMissing data field = true ↔
      data.lookup field = none ∨
        ∃ v, data.lookup field = some v ∧ pyTruthy v = false := by
  unfold fieldMissing
  cases h : data.lookup field <;> simp [h]

/-- Length of a Python slice `s[:n]`. -/
theorem pyTake_length (n : Nat) (s : String) :
    (pyTake n s).length = min n s.length := by
  show (s.data.take n).length = min n s.data.length
  exact List.length_take n s.data

/-- The first eight characters of a canonical `uuid4` string form an
8-character lowercase-hexadecimal string. -/
theorem pyTake8_of_uuid (u : String) (hu : isUuid4String u = true) :
    (pyTake 8 u).length = 8 ∧ (pyTake 8 u).data.all isLowerHexDigit = true := by
  simp only [isUuid4String, Bool.and_eq_true, beq_iff_eq] at hu
  refine ⟨?_, ?_⟩
  · rw [pyTake_length]
    have h36 : u.data.length = 36 := hu.1.1.1.1.1.1.1.1.1
    simp [String.length, h36]
  · exact hu.1.1.1.1.1.1.1.1.2

/-- Every successful orchestration run carries the first eight characters of
the per-call uuid string as its report id. -/
theorem process_ok_report_id (data : PyDict) (client : ClientState)
    (uuidStr nowStr : String) (r : MashupResult) (n : Nat)
    (hp : processGameMashup data client uuidStr nowStr = (Except.ok r, n)) :
    r.report_id = pyTake 8 uuidStr := by
  unfold processGameMashup at hp
  split at hp
  · simp at hp
  · split at hp
    · split at hp
      · simp at hp
      · split at hp
        · simp at hp
        · split at hp
          · simp at hp
          · simp only [Prod.mk.injEq, Except.ok.injEq] at hp
            rw [← hp.1]
    · simp at hp

/-- C1: the claimed invariant fails on the code: with no API credential
configured (`client = None`) and a valid payload, the endpoint returns a
success `MashupResult` (HTTP 200, `success: true`) although the completion
client is never invoked and hence never returned generated text. -/
theorem spurious_mashup_result_without_completion_call :
    api_create_mashup (some validPayload) none "0123abcd-ef01-4abc-8def-0123456789ab"
        "June 01, 2025 at 10:00 AM" =
      ((200, ApiBody.okBody
        { success := true,
          message := "Game mashup created successfully!",
          report_id := "0123abcd",
          mashup_name := Value.str "Mash",
          concept := notInitializedMsg,
          source_game1 := "Game one description",
          source_game2 := "Game two description",
          generated_at := "June 01, 2025 at 10:00 AM" }), 0) := rfl

/-- C2: with no API credential configured (`client = None`), a valid payload
does not fail with a configuration error: `process_game_mashup` returns a
`success: true` result whose concept is the not-initialized message, with
zero completion-client invocations. -/
theorem unconfigured_client_reports_success :
    processGameMashup validPayload none "9f8e7d6c-1a2b-4c3d-8e9f-0a1b2c3d4e5f"
        "July 04, 2025 at 09:30 AM" =
      (Except.ok
        { success := true,
          message := "Game mashup created successfully!",
          report_id := "9f8e7d6c",
          mashup_name := Value.str "Mash",
          concept := notInitializedMsg,
          source_game1 := "Game one description",
          source_game2 := "Game two description",
          generated_at := "July 04, 2025 at 09:30 AM" }, 0) := rfl

/-- C3: whenever at least one required field is missing or empty,
`process_game_mashup` raises `ValueError` naming the first missing field in
the fixed order `mashup_name`, `game1_data`, `game2_data`, and the completion
client is never invoked. -/
theorem validation_names_first_missing_field (data : PyDict) (client : ClientState)
    (uuidStr nowStr : String)
    (h : fieldMissing data "mashup_name" = true ∨ fieldMissing data "game1_data" = true ∨
      fieldMissing data "game2_data" = true) :
    processGameMashup data client uuidStr nowStr =
      (Except.error (Exn.valueError ("Missing required field: " ++
        (if fieldMissing data "mashup_name" then "mashup_name"
         else if fieldMissing data "game1_data" then "game1_data"
         else "game2_data"))), 0) := by
  unfold processGameMashup validateFields required_fields
  cases h1 : fieldMissing data "mashup_name"
  · cases h2 : fieldMissing data "game1_data"
    · cases h3 : fieldMissing data "game2_data"
      · rcases h with h | h | h
        · rw [h] at h1; exact Bool.noConfusion h1
        · rw [h] at h2; exact Bool.noConfusion h2
        · rw [h] at h3; exact Bool.noConfusion h3
      · simp [List.find?, h1, h2, h3]
    · simp [List.find?, h1, h2]
  · simp [List.find?, h1]

/-- Witness for C3 at the empty payload: the first field named is
`mashup_name`. -/
theorem validation_names_first_missing_field_witness :
    processGameMashup [] none "u" "t" =
      (Except.error (Exn.valueError "Missing required field: mashup_name"), 0) :=
  validation_names_first_missing_field [] none "u" "t" (Or.inl rfl)

/-- C4 counterexample: a payload whose `mashup_name` holds the non-string
truthy value `1` passes validation and the orchestration succeeds, so a
non-string value is not treated as missing. -/
theorem nonstring_truthy_passes_validation :
    validateFields
        [("mashup_name", Value.num 1), ("game1_data", Value.str "x"),
         ("game2_data", Value.str "y")] = none ∧
    processGameMashup
        [("mashup_name", Value.num 1), ("game1_data", Value.str "x"),
         ("game2_data", Value.str "y")] none "11112222-3333-4444-5555-666677778888"
        "May 05, 2025 at 05:05 PM" =
      (Except.ok
        { success := true,
          message := "Game mashup created successfully!",
          report_id := "11112222",
          mashup_name := Value.num 1,
          concept := notInitializedMsg,
          source_game1 := "x",
          source_game2 := "y",
          generated_at := "May 05, 2025 at 05:05 PM" }, 0) :=
  ⟨rfl, rfl⟩

/-- C4 amended: the validator rejects with a `ValueError` naming a required
field exactly when some required field's key is absent or its value is falsy
(empty string, null, zero, false); non-string truthy values pass
validation. -/
theorem validation_error_iff_absent_or_falsy (data : PyDict) (client : ClientState)
    (uuidStr nowStr : String) :
    (∃ f, processGameMashup data client uuidStr nowStr =
        (Except.error (Exn.valueError ("Missing required field: " ++ f)), 0)) ↔
      ∃ f ∈ required_fields, data.lookup f = none ∨
        ∃ v, data.lookup f = some v ∧ pyTruthy v = false := by
  constructor
  · rintro ⟨f, hf⟩
    rcases hval : validateFields data with _ | g
    · exfalso
      unfold processGameMashup at hf
      rw [hval] at hf
      rcases hm : data.lookup "mashup_name" with _ | vm <;> rw [hm] at hf
      · simp at hf
      rcases hg1 : data.lookup "game1_data" with _ | v1 <;> rw [hg1] at hf
      · simp at hf
      rcases hg2 : data.lookup "game2_data" with _ | v2 <;> rw [hg2] at hf
      · simp at hf
      rcases client with _ | fc
      · simp only [create_game_mashup] at hf
        rcases v1 with _ | s1 | n1 | b1 <;> simp [pyExcerpt] at hf
        rcases v2 with _ | s2 | n2 | b2 <;> simp [pyExcerpt] at hf
      · simp only [create_game_mashup] at hf
        rcases hres : fc
            { model := "gpt-4", messages := buildMessages (pyStr v1) (pyStr v2),
              maxTokens := 2500 } with e | c <;> rw [hres] at hf
        · simp at hf
        · rcases hx1 : pyExcerpt v1 with e | s1 <;> rw [hx1] at hf
          · simp at hf
          · rcases hx2 : pyExcerpt v2 with e | s2 <;> rw [hx2] at hf
            · simp at hf
            · simp at hf
    · have hmem : g ∈ required_fields := List.mem_of_find?_eq_some hval
      have hmiss : fieldMissing data g = true := List.find?_some hval
      exact ⟨g, hmem, (fieldMissing_iff data g).1 hmiss⟩
  · rintro ⟨f, hmem, hcond⟩
    have hmiss : fieldMissing data f = true := (fieldMissing_iff data f).2 hcond
    have hsome : ∃ g, validateFields data = some g := by
      simp only [required_fields, List.mem_cons, List.not_mem_nil, or_false] at hmem
      rcases hmem with rfl | rfl | rfl
      · exact ⟨"mashup_name", by simp [validateFields, required_fields, List.find?, hmiss]⟩
      · cases h1 : fieldMissing data "mashup_name"
        · exact ⟨"game1_data", by simp [validateFields, required_fields, List.find?, h1, hmiss]⟩
        · exact ⟨"mashup_name", by simp [validateFields, required_fields, List.find?, h1]⟩
      · cases h1 : fieldMissing data "mashup_name"
        · cases h2 : fieldMissing data "game1_data"
          · exact ⟨"game2_data",
              by simp [validateFields, required_fields, List.find?, h1, h2, hmiss]⟩
          · exact ⟨"game1_data", by simp [validateFields, required_fields, List.find?, h1, h2]⟩
        · exact ⟨"mashup_name", by simp [validateFields, required_fields, List.find?, h1]⟩
    obtain ⟨g, hg⟩ := hsome
    refine ⟨g, ?_⟩
    unfold processGameMashup
    rw [hg]

/-- C5: the excerpt equals the input when its length is at most 100, equals
the first 100 characters followed by the `"..."` marker when the length
exceeds 100, and the marker is appended if and only if the length exceeds
100. -/
theorem excerpt_truncation_spec (d : String) :
    (d.length ≤ 100 → excerpt d = d) ∧
    (100 < d.length → excerpt d = pyTake 100 d ++ "...") ∧
    (excerpt d = pyTake 100 d ++ "..." ↔ 100 < d.length) := by
  refine ⟨fun h => ?_, fun h => ?_, fun he => ?_, fun h => ?_⟩
  · unfold excerpt
    rw [if_neg (by omega)]
  · unfold excerpt
    rw [if_pos h]
  · by_contra hle
    push_neg at hle
    unfold excerpt at he
    rw [if_neg (by omega)] at he
    have hlen := congrArg String.length he
    rw [String.length_append, pyTake_length] at hlen
    have hdots : ("..." : String).length = 3 := rfl
    omega
  · unfold excerpt
    rw [if_pos h]

/-- Witness for C5 at a 5-character and a 101-character input. -/
theorem excerpt_truncation_spec_witness :
    excerpt "short" = "short" ∧
      excerpt (String.mk (List.replicate 101 'a')) =
        pyTake 100 (String.mk (List.replicate 101 'a')) ++ "..." :=
  ⟨(excerpt_truncation_spec "short").1 (by decide),
   (excerpt_truncation_spec (String.mk (List.replicate 101 'a'))).2.1 (by simp [String.length])⟩

/-- C6: the user prompt embeds both description blobs verbatim between fixed
template pieces that do not depend on the inputs, and the template text after
the blobs carries the eight section headings in the stated order. -/
theorem prompt_template_structure :
    ∃ pre mid post : String,
      (∀ game1Data game2Data : String,
        promptOf game1Data game2Data = pre ++ (game1Data ++ (mid ++ (game2Data ++ post)))) ∧
      containsInOrder post sectionHeadings :=
  ⟨promptPre, promptMid, promptPost, fun _ _ => rfl,
   promptSeg0, promptPost1, rfl,
   promptSeg1, promptPost2, rfl,
   promptSeg2, promptPost3, rfl,
   promptSeg3, promptPost4, rfl,
   promptSeg4, promptPost5, rfl,
   promptSeg5, promptPost6, rfl,
   promptSeg6, promptPost7, rfl,
   promptSeg7, promptPost8, rfl, trivial⟩

/-- C7: prompt building is deterministic: identical description inputs yield
byte-identical system-role and user-role message strings. -/
theorem prompt_building_deterministic (g1 g2 g1' g2' : String)
    (h1 : g1 = g1') (h2 : g2 = g2') :
    buildMessages g1 g2 = buildMessages g1' g2' := by
  rw [h1, h2]

/-- Witness for C7 at two concrete runs on equal inputs. -/
theorem prompt_building_deterministic_witness :
    buildMessages "Tetris" "Dark Souls" = buildMessages "Tetris" "Dark Souls" :=
  prompt_building_deterministic "Tetris" "Dark Souls" "Tetris" "Dark Souls" rfl rfl

/-- C8: when the completion client raises, the endpoint answers HTTP 500 with
the underlying message passed through unchanged after exactly one client
invocation (no retry), while validation failures answer HTTP 400 with zero
client invocations. -/
theorem upstream_error_passthrough (data : PyDict) (fc : ClientFn)
    (uuidStr nowStr errMsg : String)
    (hc : ∀ req : CompletionRequest, fc req = Except.error (Exn.otherError errMsg))
    (vm v1 v2 : Value)
    (hm : data.lookup "mashup_name" = some vm) (htm : pyTruthy vm = true)
    (h1 : data.lookup "game1_data" = some v1) (ht1 : pyTruthy v1 = true)
    (h2 : data.lookup "game2_data" = some v2) (ht2 : pyTruthy v2 = true) :
    api_create_mashup (some data) (some fc) uuidStr nowStr =
        ((500, ApiBody.errBody errMsg), 1) ∧
      ∀ (data2 : PyDict) (field : String), validateFields data2 = some field →
        api_create_mashup (some data2) (some fc) uuidStr nowStr =
          ((400, ApiBody.errBody ("Missing required field: " ++ field)), 0) := by
  have hval : validateFields data = none := by
    simp [validateFields, required_fields, List.find?, fieldMissing, hm, h1, h2, htm, ht1, ht2]
  have hstep : processGameMashup data (some fc) uuidStr nowStr =
      (Except.error (Exn.otherError errMsg), 1) := by
    unfold processGameMashup
    rw [hval, hm, h1, h2]
    simp only [create_game_mashup]
    rw [hc]
  constructor
  · simp only [api_create_mashup]
    rw [hstep]
  · intro data2 field hfld
    simp only [api_create_mashup, processGameMashup]
    rw [hfld]

/-- Witness for C8 at a concrete always-raising client and valid payload. -/
theorem upstream_error_passthrough_witness :
    api_create_mashup (some validPayload)
        (some (fun _ => Except.error (Exn.otherError "connection reset"))) "u" "t" =
      ((500, ApiBody.errBody "connection reset"), 1) :=
  (upstream_error_passthrough validPayload
    (fun _ => Except.error (Exn.otherError "connection reset")) "u" "t" "connection reset"
    (fun _ => rfl) (Value.str "Mash") (Value.str "Game one description")
    (Value.str "Game two description") rfl rfl rfl rfl rfl rfl).1

/-- C9: every successful orchestration result carries a `report_id` of
exactly eight lowercase hexadecimal characters, namely the first eight
characters of the per-call uuid string. -/
theorem report_id_eight_lowercase_hex (data : PyDict) (client : ClientState)
    (uuidStr nowStr : String) (hu : isUuid4String uuidStr = true)
    (r : MashupResult) (n : Nat)
    (hp : processGameMashup data client uuidStr nowStr = (Except.ok r, n)) :
    r.report_id = pyTake 8 uuidStr ∧ r.report_id.length = 8 ∧
      r.report_id.data.all isLowerHexDigit = true := by
  have hid := process_ok_report_id data client uuidStr nowStr r n hp
  have h8 := pyTake8_of_uuid uuidStr hu
  exact ⟨hid, by rw [hid]; exact h8.1, by rw [hid]; exact h8.2⟩

/-- Witness for C9 at a concrete uuid string and a successful run. -/
theorem report_id_eight_lowercase_hex_witness :
    ("0123abcd" : String) = pyTake 8 "0123abcd-ef01-4abc-8def-0123456789ab" ∧
      ("0123abcd" : String).length = 8 ∧
      ("0123abcd" : String).data.all isLowerHexDigit = true :=
  report_id_eight_lowercase_hex validPayload none "0123abcd-ef01-4abc-8def-0123456789ab"
    "June 01, 2025 at 10:00 AM" (by decide)
    { success := true,
      message := "Game mashup created successfully!",
      report_id := "0123abcd",
      mashup_name := Value.str "Mash",
      concept := notInitializedMsg,
      source_game1 := "Game one description",
      source_game2 := "Game two description",
      generated_at := "June 01, 2025 at 10:00 AM" } 0 rfl

/-- C10: a request carrying no JSON body answers HTTP 400 with the fixed
error object and the completion client is never invoked. -/
theorem no_json_body_yields_400 (client : ClientState) (uuidStr nowStr : String) :
    api_create_mashup none client uuidStr nowStr =
      ((400, ApiBody.errBody "No JSON data provided"), 0) := rfl

end GameMashup
